import Mathlib

/-!
Shallow embedding of the Skia draw-command debugger façade (`SkDebugger`)
and the slice of its `SkDebugCanvas` command log that the façade exposes.

The inline methods of `src/debugger/SkDebugger.h` (`setIndex`, `draw`,
`isCommandVisible`, `setCommandVisible`, `getSize`, `getCommandAtPoint`,
`pictureCull`, `index`, ...) are translated directly from that header.
The members that the header only declares (`SkDebugger` constructor,
`step`, `stepBack`, `play`, `rewind`, `loadPicture`, `getOverviewText`)
and the `SkDebugCanvas` internals (`drawTo`, `toggleCommand`,
`getCommandAtPoint`) are not part of the sources; those are modelled from
the specification, and each such definition says so in its doc comment.
-/

/-- Render-mode flags of the command log: overdraw visualization, path-ops
clip simplification, mega visualization mode, and the texture filter
override with its level. Each is independently togglable. -/
structure RenderModeFlags where
  overdrawViz : Bool
  pathOpsSimplification : Bool
  megaVizMode : Bool
  texFilterOverride : Bool
  texFilterLevel : Nat
deriving DecidableEq, Repr

/-- All render-mode flags off. -/
def RenderModeFlags.none : RenderModeFlags :=
  { overdrawViz := false, pathOpsSimplification := false, megaVizMode := false,
    texFilterOverride := false, texFilterLevel := 0 }

/-- An integer rectangle, standing in for `SkIRect`: the half-open box
`[left, right) × [top, bottom)`. -/
structure SkIRect where
  left : Int
  top : Int
  right : Int
  bottom : Int
deriving DecidableEq, Repr

/-- Whether a point lies in the rectangle. -/
def SkIRect.contains (r : SkIRect) (x y : Int) : Bool :=
  r.left ≤ x && x < r.right && r.top ≤ y && y < r.bottom

/-- A rectangle standing in for `SkRect` (we only store and compare culls,
so integer coordinates suffice for the embedding). -/
structure SkRect where
  left : Int
  top : Int
  right : Int
  bottom : Int
deriving DecidableEq, Repr

/-- `SkRect::MakeEmpty()`: the all-zero rectangle. -/
def SkRect.makeEmpty : SkRect :=
  { left := 0, top := 0, right := 0, bottom := 0 }

/-- One decomposed draw command (`SkDrawCommand`): an immutable payload
(abstracted as an opcode identifier), the mutable `visible` flag, and
`pointCoverage`, the set of points that the command's rendered geometry
covers under the clip in effect at that command (used by the hit-test). -/
structure SkDrawCommand where
  op : Nat
  visible : Bool
  pointCoverage : SkIRect
deriving DecidableEq, Repr

/-- A picture (`SkPicture`): its cull rectangle and, when the picture can
be decomposed, the ordered list of draw commands it decomposes into
(`none` models an undecomposable/malformed picture). -/
structure SkPicture where
  cullRect : SkRect
  decomposed : Option (List SkDrawCommand)
deriving DecidableEq, Repr

/-- The command log (`SkDebugCanvas` slice): the ordered command sequence,
the window size, the render-mode flags, and the highlight filter toggle. -/
structure SkDebugCanvas where
  commands : List SkDrawCommand
  windowWidth : Int
  windowHeight : Int
  flags : RenderModeFlags
  filter : Bool
deriving DecidableEq, Repr

/-- A freshly built, empty command log: no commands, zero window, all
render modes off, highlight filter off. -/
def SkDebugCanvas.empty : SkDebugCanvas :=
  { commands := [], windowWidth := 0, windowHeight := 0,
    flags := RenderModeFlags.none, filter := false }

/-- `SkDebugCanvas::getSize()`: the number of commands in the log, as the
C++ `int` it returns. -/
def SkDebugCanvas.getSize (c : SkDebugCanvas) : Int :=
  (c.commands.length : Int)

/-- The record left on the surface by executing one command during replay:
which operation ran, under which render-mode flags, and whether it was
rendered with the highlight-emphasis overlay. -/
structure ExecRecord where
  op : Nat
  flags : RenderModeFlags
  emphasized : Bool
deriving DecidableEq, Repr

/-- The external drawing surface, observed as the trace of executed
operations (the debugger writes into the surface and never reads it). -/
abbrev Surface : Type := List ExecRecord

/-- Modelled from the spec: the contribution of command `j` to a replay of
the prefix `[0, upto)` — `none` when `j` is out of range or the command's
`visible` flag is false (it is skipped), otherwise the executed operation
under the log's render-mode flags, emphasized exactly when the highlight
filter is enabled and `j` is the last command of the replayed prefix. -/
def renderRecord (c : SkDebugCanvas) (upto : Nat) (j : Nat) : Option ExecRecord :=
  match c.commands.get? j with
  | some cmd =>
      if cmd.visible then
        some { op := cmd.op, flags := c.flags,
               emphasized := c.filter && (j + 1 == upto) }
      else
        none
  | none => none

/-- Modelled from the spec: `SkDebugCanvas::drawTo(canvas, index)` /
`Replay(surface, uptoIndex)` executes commands `[0, uptoIndex)` against
the surface, skipping invisible commands, applying the render-mode flags,
and emphasizing the command at `uptoIndex - 1` when the highlight filter
is on. The log itself is not mutated, so the call is rendered as a pure
function of the log, the surface and the index. -/
def SkDebugCanvas.drawTo (c : SkDebugCanvas) (surf : Surface) (upto : Int) : Surface :=
  surf ++ (List.range upto.toNat).filterMap (renderRecord c upto.toNat)

/-- Modelled from the spec: `drawTo` as a call on the mutable canvas — it
returns the surface output together with the canvas state after the call.
Per the spec, replay carries no hidden state across calls, so the canvas
comes back unchanged. -/
def SkDebugCanvas.drawToCall (c : SkDebugCanvas) (surf : Surface) (upto : Int) :
    Surface × SkDebugCanvas :=
  (c.drawTo surf upto, c)

/-- Modelled from the spec: `SkDebugCanvas::toggleCommand(index, visible)`
sets the `visible` flag of exactly the targeted command; every other
command is untouched. -/
def setVisibleAt : List SkDrawCommand → Nat → Bool → List SkDrawCommand
  | [], _, _ => []
  | c :: cs, 0, b => { c with visible := b } :: cs
  | c :: cs, Nat.succ n, b => c :: setVisibleAt cs n b

/-- Modelled from the spec: `toggleCommand` on the canvas. -/
def SkDebugCanvas.toggleCommand (c : SkDebugCanvas) (index : Int) (visible : Bool) :
    SkDebugCanvas :=
  { c with commands := setVisibleAt c.commands index.toNat visible }

/-- Modelled from the spec: the reverse scan of `HitTest`. `hitSearch cmds
x y n` scans indices `n-1, n-2, ..., 0` (topmost/last-drawn first) and
returns the first index whose command is visible and whose rendered
geometry covers `(x, y)`; `-1` is the "none" sentinel. -/
def hitSearch (cmds : List SkDrawCommand) (x y : Int) : Nat → Int
  | 0 => -1
  | Nat.succ n =>
      match cmds.get? n with
      | some c =>
          if c.visible && c.pointCoverage.contains x y then (n : Int)
          else hitSearch cmds x y n
      | none => hitSearch cmds x y n

/-- Modelled from the spec: `SkDebugCanvas::getCommandAtPoint(x, y, index)`
hit-tests the prefix `[0, index)` in reverse order. -/
def SkDebugCanvas.getCommandAtPoint (c : SkDebugCanvas) (x y : Int) (index : Int) : Int :=
  hitSearch c.commands x y index.toNat

/-- The debugger façade (`SkDebugger`): it owns one command log
(`fDebugCanvas`), the currently loaded picture (`fPicture`, null when no
picture is loaded), and the playback cursor `fIndex` (a C++ `int`, hence
`Int`). -/
structure SkDebugger where
  fDebugCanvas : SkDebugCanvas
  fPicture : Option SkPicture
  fIndex : Int
deriving DecidableEq, Repr

/-- Modelled from the spec: `SkDebugger::SkDebugger()` constructs the
debugger with an empty command log, no picture, and the cursor at 0. -/
def SkDebugger.initial : SkDebugger :=
  { fDebugCanvas := SkDebugCanvas.empty, fPicture := none, fIndex := 0 }

/-- `SkDebugger::setIndex(int index)`: stores the given index into
`fIndex`, with no clamping (translated from the header as written). -/
def SkDebugger.setIndex (d : SkDebugger) (index : Int) : SkDebugger :=
  { d with fIndex := index }

/-- `SkDebugger::getSize()`: forwards to the log's size. -/
def SkDebugger.getSize (d : SkDebugger) : Int :=
  d.fDebugCanvas.getSize

/-- `SkDebugger::index()`: the current cursor. -/
def SkDebugger.index (d : SkDebugger) : Int :=
  d.fIndex

/-- `SkDebugger::draw(canvas)`: if `fIndex > 0`, delegates to
`fDebugCanvas->drawTo(canvas, fIndex)`; otherwise does nothing to the
surface (translated from the header as written). -/
def SkDebugger.draw (d : SkDebugger) (surf : Surface) : Surface :=
  if d.fIndex > 0 then d.fDebugCanvas.drawTo surf d.fIndex else surf

/-- Modelled from the spec: `SkDebugger::step()` (declared only in the
header) sets `cursorIndex = min(cursorIndex + 1, length)`. -/
def SkDebugger.step (d : SkDebugger) : SkDebugger :=
  { d with fIndex := min (d.fIndex + 1) d.getSize }

/-- Modelled from the spec: `SkDebugger::stepBack()` (declared only in the
header) sets `cursorIndex = max(cursorIndex - 1, 0)`. -/
def SkDebugger.stepBack (d : SkDebugger) : SkDebugger :=
  { d with fIndex := max (d.fIndex - 1) 0 }

/-- Modelled from the spec: `SkDebugger::play()` (declared only in the
header) sets `cursorIndex = length`. -/
def SkDebugger.play (d : SkDebugger) : SkDebugger :=
  { d with fIndex := d.getSize }

/-- Modelled from the spec: `SkDebugger::rewind()` (declared only in the
header) sets `cursorIndex = 0`. -/
def SkDebugger.rewind (d : SkDebugger) : SkDebugger :=
  { d with fIndex := 0 }

/-- The load error of the spec's error model. -/
inductive LoadError where
  | invalidPicture
deriving DecidableEq, Repr

/-- Modelled from the spec: `SkDebugger::loadPicture(picture)` (declared
only in the header). Loading a null or undecomposable picture fails with
`InvalidPicture` and leaves the prior state unchanged; otherwise the
picture replaces `fPicture`, the command log is rebuilt from the
picture's decomposed operation sequence, and the cursor is reset (to 0,
one of the two boundary policies the spec admits). The result pairs the
debugger state after the call with the reported error, if any. -/
def SkDebugger.loadPicture (d : SkDebugger) (picture : Option SkPicture) :
    SkDebugger × Option LoadError :=
  match picture with
  | Option.none => (d, some LoadError.invalidPicture)
  | some pic =>
      match pic.decomposed with
      | Option.none => (d, some LoadError.invalidPicture)
      | some cmds =>
          ({ fDebugCanvas := { SkDebugCanvas.empty with commands := cmds },
             fPicture := some pic, fIndex := 0 }, Option.none)

/-- `SkDebugger::isCommandVisible(index)`: forwards to the log (out of
range reads as false, matching `get?`). -/
def SkDebugger.isCommandVisible (d : SkDebugger) (index : Int) : Bool :=
  match d.fDebugCanvas.commands.get? index.toNat with
  | some c => c.visible
  | none => false

/-- `SkDebugger::setCommandVisible(index, isVisible)`: forwards to
`fDebugCanvas->toggleCommand(index, isVisible)`. -/
def SkDebugger.setCommandVisible (d : SkDebugger) (index : Int) (isVisible : Bool) :
    SkDebugger :=
  { d with fDebugCanvas := d.fDebugCanvas.toggleCommand index isVisible }

/-- `SkDebugger::getCommandAtPoint(x, y, index)`: forwards to the log. -/
def SkDebugger.getCommandAtPoint (d : SkDebugger) (x y : Int) (index : Int) : Int :=
  d.fDebugCanvas.getCommandAtPoint x y index

/-- `SkDebugger::pictureCull()`: `NULL == fPicture ? SkRect::MakeEmpty()
: fPicture->cullRect()` (translated from the header as written). -/
def SkDebugger.pictureCull (d : SkDebugger) : SkRect :=
  match d.fPicture with
  | Option.none => SkRect.makeEmpty
  | some pic => pic.cullRect

/-- Modelled from the spec: `SkDebugger::getOverviewText(typeTimes,
totTime, overview, numRuns)` (declared only in the header) renders each
command type's percentage share of `totTime` over `numRuns` profiling
runs; with a zero total time or empty timing data it reports "No data"
instead of dividing by zero. -/
def SkDebugger.getOverviewText (typeTimes : List ℚ) (totTime : ℚ) (numRuns : Nat) :
    String :=
  if totTime = 0 ∨ typeTimes = [] then
    "No data"
  else
    "Runs: " ++ toString numRuns ++ "\n" ++
      String.join (typeTimes.map (fun t => toString (t * 100 / totTime) ++ "%\n"))

/-- The debugger operations a caller can perform, for reasoning about
operation sequences. -/
inductive DebuggerOp where
  | loadPicture (picture : Option SkPicture)
  | setIndex (i : Int)
  | step
  | stepBack
  | play
  | rewind
deriving DecidableEq, Repr

/-- The state transition of one operation (a failing `loadPicture` leaves
the state unchanged, per its definition). -/
def applyOp (d : SkDebugger) : DebuggerOp → SkDebugger
  | DebuggerOp.loadPicture p => (d.loadPicture p).1
  | DebuggerOp.setIndex i => d.setIndex i
  | DebuggerOp.step => d.step
  | DebuggerOp.stepBack => d.stepBack
  | DebuggerOp.play => d.play
  | DebuggerOp.rewind => d.rewind

/-- Running a sequence of operations from a state. -/
def runOps (d : SkDebugger) (ops : List DebuggerOp) : SkDebugger :=
  ops.foldl applyOp d

/-- The cursor-range invariant: `0 ≤ fIndex ≤ number of commands`. -/
def cursorInRange (d : SkDebugger) : Prop :=
  0 ≤ d.fIndex ∧ d.fIndex ≤ d.getSize

instance (d : SkDebugger) : Decidable (cursorInRange d) := by
  unfold cursorInRange
  infer_instance

/-- An operation other than `setIndex` (those are the clamped
transitions). -/
def DebuggerOp.clamped : DebuggerOp → Prop
  | DebuggerOp.setIndex _ => False
  | _ => True

instance : DecidablePred DebuggerOp.clamped := fun op =>
  match op with
  | DebuggerOp.loadPicture _ => Decidable.isTrue True.intro
  | DebuggerOp.setIndex _ => Decidable.isFalse (fun h => h)
  | DebuggerOp.step => Decidable.isTrue True.intro
  | DebuggerOp.stepBack => Decidable.isTrue True.intro
  | DebuggerOp.play => Decidable.isTrue True.intro
  | DebuggerOp.rewind => Decidable.isTrue True.intro

/-- A sample visible command covering `[0,4) × [0,4)`. -/
def cmdA : SkDrawCommand :=
  { op := 1, visible := true, pointCoverage := { left := 0, top := 0, right := 4, bottom := 4 } }

/-- A sample visible command covering `[2,6) × [2,6)`. -/
def cmdB : SkDrawCommand :=
  { op := 2, visible := true, pointCoverage := { left := 2, top := 2, right := 6, bottom := 6 } }

/-- A sample command that is not visible. -/
def cmdC : SkDrawCommand :=
  { op := 3, visible := false, pointCoverage := { left := 0, top := 0, right := 8, bottom := 8 } }

/-- A sample decomposable picture with three commands. -/
def samplePicture : SkPicture :=
  { cullRect := { left := 0, top := 0, right := 8, bottom := 8 },
    decomposed := some [cmdA, cmdB, cmdC] }

/-- A sample command log holding the three sample commands. -/
def sampleLog : SkDebugCanvas :=
  { SkDebugCanvas.empty with commands := [cmdA, cmdB, cmdC] }

/-- A sample debugger whose cursor sits at the log length. -/
def sampleDebugger : SkDebugger :=
  { fDebugCanvas := sampleLog, fPicture := some samplePicture, fIndex := 3 }

/-- A sample debugger whose cursor sits at 0. -/
def zeroDebugger : SkDebugger :=
  { fDebugCanvas := sampleLog, fPicture := some samplePicture, fIndex := 0 }

/-- A sample picture that cannot be decomposed. -/
def badPicture : SkPicture :=
  { cullRect := { left := 0, top := 0, right := 2, bottom := 2 },
    decomposed := Option.none }

/-- Whether index `i` matches the hit-test probe `(x, y)`: the command
exists, its `visible` flag is set, and its rendered geometry (under the
clip in effect at that command) covers the point. -/
def matchesAtB (cmds : List SkDrawCommand) (x y : Int) (i : Nat) : Bool :=
  match cmds.get? i with
  | some c => c.visible && c.pointCoverage.contains x y
  | none => false

/-- A one-command log with the highlight filter off. -/
def logNoFilter : SkDebugCanvas :=
  { SkDebugCanvas.empty with commands := [cmdA] }

/-- The same one-command log with the highlight filter on. -/
def logWithFilter : SkDebugCanvas :=
  { logNoFilter with filter := true }

theorem applyOp_preserves_range (d : SkDebugger) (op : DebuggerOp)
    (hop : op.clamped) (h : cursorInRange d) : cursorInRange (applyOp d op) := by
  obtain ⟨h0, h1⟩ := h
  cases op with
  | loadPicture p =>
      cases p with
      | none => exact ⟨h0, h1⟩
      | some pic =>
          cases hdec : pic.decomposed with
          | none =>
              show cursorInRange (SkDebugger.loadPicture d (some pic)).1
              simp only [SkDebugger.loadPicture, hdec]
              exact ⟨h0, h1⟩
          | some cmds =>
              show cursorInRange (SkDebugger.loadPicture d (some pic)).1
              simp only [SkDebugger.loadPicture, hdec, cursorInRange,
                SkDebugger.getSize, SkDebugCanvas.getSize]
              omega
  | setIndex i => exact absurd hop (fun hf => hf)
  | step =>
      simp only [applyOp, SkDebugger.step, cursorInRange, SkDebugger.getSize,
        SkDebugCanvas.getSize] at *
      omega
  | stepBack =>
      simp only [applyOp, SkDebugger.stepBack, cursorInRange, SkDebugger.getSize,
        SkDebugCanvas.getSize] at *
      omega
  | play =>
      simp only [applyOp, SkDebugger.play, cursorInRange, SkDebugger.getSize,
        SkDebugCanvas.getSize] at *
      omega
  | rewind =>
      simp only [applyOp, SkDebugger.rewind, cursorInRange, SkDebugger.getSize,
        SkDebugCanvas.getSize] at *
      omega

theorem runOps_preserves_range (d : SkDebugger) (ops : List DebuggerOp)
    (hops : ∀ op ∈ ops, op.clamped) (h : cursorInRange d) :
    cursorInRange (runOps d ops) := by
  induction ops generalizing d with
  | nil => exact h
  | cons op rest ih =>
      exact ih (applyOp d op)
        (fun o ho => hops o (List.mem_cons_of_mem op ho))
        (applyOp_preserves_range d op (hops op (List.mem_cons_self op rest)) h)

/-- Claim C1, as stated, is false: the operation list includes `setIndex`,
and `SkDebugger::setIndex` stores its argument without clamping, so
`setIndex(-1)` from the freshly constructed debugger drives the cursor to
`-1`, outside `[0, number of commands]`. -/
theorem c1_counterexample :
    ¬ cursorInRange (runOps SkDebugger.initial [DebuggerOp.setIndex (-1)]) := by
  decide

/-- Claim C1 (amended): for every sequence of operations drawn from
construction, `loadPicture`, `step`, `stepBack`, `play` and `rewind` —
that is, every operation of the claim except `setIndex` — the cursor
index stays in `[0, number of commands]` after every operation. -/
theorem c1_cursor_always_in_range (ops : List DebuggerOp)
    (hops : ∀ op ∈ ops, op.clamped) :
    cursorInRange (runOps SkDebugger.initial ops) :=
  runOps_preserves_range SkDebugger.initial ops hops
    ⟨le_refl 0, le_refl 0⟩

/-- Concrete instantiation of the amended C1 theorem on a sequence that
loads a picture and exercises every clamped transition. -/
theorem c1_cursor_always_in_range_witness :
    (∀ op ∈ [DebuggerOp.loadPicture (some samplePicture), DebuggerOp.step,
        DebuggerOp.step, DebuggerOp.play, DebuggerOp.stepBack, DebuggerOp.rewind],
      op.clamped) ∧
    cursorInRange (runOps SkDebugger.initial
      [DebuggerOp.loadPicture (some samplePicture), DebuggerOp.step,
        DebuggerOp.step, DebuggerOp.play, DebuggerOp.stepBack, DebuggerOp.rewind]) :=
  ⟨by decide,
   c1_cursor_always_in_range
     [DebuggerOp.loadPicture (some samplePicture), DebuggerOp.step,
       DebuggerOp.step, DebuggerOp.play, DebuggerOp.stepBack, DebuggerOp.rewind]
     (by decide)⟩

/-- Claim C2: `draw(surface)` delegates to the log's replay of the prefix
`[0, cursorIndex)` exactly when `cursorIndex > 0`, and otherwise leaves
the surface untouched; in particular `rewind()` followed by `draw`
performs an empty/no-op draw. -/
theorem c2_draw_delegates_iff_positive (d : SkDebugger) (surf : Surface) :
    (0 < d.fIndex → d.draw surf = d.fDebugCanvas.drawTo surf d.fIndex) ∧
    (d.fIndex ≤ 0 → d.draw surf = surf) ∧
    (d.rewind).draw surf = surf := by
  refine ⟨fun h => ?_, fun h => ?_, ?_⟩
  · simp only [SkDebugger.draw, if_pos h]
  · simp only [SkDebugger.draw]
    rw [if_neg (by omega)]
  · simp only [SkDebugger.draw, SkDebugger.rewind]
    rw [if_neg (by omega)]

/-- Concrete instantiation of C2 at a cursor of 2 and at a rewound
debugger. -/
theorem c2_draw_delegates_iff_positive_witness :
    (0 : Int) < (sampleDebugger.setIndex 2).fIndex ∧
    (sampleDebugger.setIndex 2).draw [] =
      (sampleDebugger.setIndex 2).fDebugCanvas.drawTo [] (sampleDebugger.setIndex 2).fIndex ∧
    zeroDebugger.fIndex ≤ 0 ∧
    zeroDebugger.draw [] = [] ∧
    (sampleDebugger.rewind).draw [] = [] :=
  ⟨by decide,
   (c2_draw_delegates_iff_positive (sampleDebugger.setIndex 2) []).1 (by decide),
   by decide,
   (c2_draw_delegates_iff_positive zeroDebugger []).2.1 (by decide),
   (c2_draw_delegates_iff_positive sampleDebugger []).2.2⟩

/-- Claim C3: `step()` sets the cursor to `min(cursorIndex + 1, length)`
and `stepBack()` sets it to `max(cursorIndex - 1, 0)`; at the upper
respectively lower boundary the whole debugger state is unchanged and no
error is signalled (the operations are total). -/
theorem c3_step_stepBack_clamp (d : SkDebugger) :
    (d.step).fIndex = min (d.fIndex + 1) d.getSize ∧
    (d.stepBack).fIndex = max (d.fIndex - 1) 0 ∧
    (d.fIndex = d.getSize → d.step = d) ∧
    (d.fIndex = 0 → d.stepBack = d) := by
  refine ⟨rfl, rfl, fun h => ?_, fun h => ?_⟩
  · have hmin : min (d.fIndex + 1) d.getSize = d.fIndex := by omega
    show { d with fIndex := min (d.fIndex + 1) d.getSize } = d
    rw [hmin]
  · have hmax : max (d.fIndex - 1) 0 = d.fIndex := by omega
    show { d with fIndex := max (d.fIndex - 1) 0 } = d
    rw [hmax]

/-- Concrete instantiation of C3: stepping at the top boundary and
stepping back at the bottom boundary are both no-ops. -/
theorem c3_step_stepBack_clamp_witness :
    sampleDebugger.fIndex = sampleDebugger.getSize ∧
    sampleDebugger.step = sampleDebugger ∧
    zeroDebugger.fIndex = 0 ∧
    zeroDebugger.stepBack = zeroDebugger :=
  ⟨by decide, (c3_step_stepBack_clamp sampleDebugger).2.2.1 (by decide),
   by decide, (c3_step_stepBack_clamp zeroDebugger).2.2.2 (by decide)⟩

theorem step_iterate (d : SkDebugger) (k : Nat)
    (hk : (k : Int) ≤ d.getSize) :
    SkDebugger.step^[k] (d.rewind) = { d with fIndex := (k : Int) } := by
  induction k with
  | zero => rfl
  | succ n ih =>
      have hn : (n : Int) ≤ d.getSize := by
        push_cast at hk ⊢
        omega
      have hsz : SkDebugger.getSize { d with fIndex := (n : Int) } = d.getSize := rfl
      have hmin : min ((n : Int) + 1) (SkDebugger.getSize { d with fIndex := (n : Int) }) = ((n + 1 : Nat) : Int) := by
        rw [hsz]
        push_cast at hk ⊢
        omega
      rw [Function.iterate_succ_apply', ih hn]
      show SkDebugger.step { d with fIndex := (n : Int) } = { d with fIndex := ((n + 1 : Nat) : Int) }
      unfold SkDebugger.step
      rw [hmin]

/-- Claim C4: `play()` sets the cursor to the log length, and `play()`
followed by `draw` produces the same surface output as `rewind()`
followed by `step()` called length-many times followed by `draw`. -/
theorem c4_play_equals_steps (d : SkDebugger) (surf : Surface) :
    (d.play).fIndex = d.getSize ∧
    (d.play).draw surf = (SkDebugger.step^[d.getSize.toNat] (d.rewind)).draw surf := by
  refine ⟨rfl, ?_⟩
  have hcast : ((d.getSize.toNat : Nat) : Int) = d.getSize := by
    simp only [SkDebugger.getSize, SkDebugCanvas.getSize, Int.toNat_natCast]
  rw [step_iterate d d.getSize.toNat (le_of_eq hcast)]
  show SkDebugger.draw { d with fIndex := d.getSize } surf =
    SkDebugger.draw { d with fIndex := ((d.getSize.toNat : Nat) : Int) } surf
  rw [hcast]

theorem hitSearch_succ (cmds : List SkDrawCommand) (x y : Int) (n : Nat) :
    hitSearch cmds x y (n + 1) =
      if matchesAtB cmds x y n = true then (n : Int) else hitSearch cmds x y n := by
  cases h : cmds.get? n with
  | none =>
      simp only [hitSearch, matchesAtB, h]
      simp
  | some c =>
      simp only [hitSearch, matchesAtB, h]

theorem hitSearch_spec (cmds : List SkDrawCommand) (x y : Int) (n : Nat) :
    ((∀ i, i < n → matchesAtB cmds x y i = false) → hitSearch cmds x y n = -1) ∧
    (∀ i, i < n → matchesAtB cmds x y i = true →
      (∀ j, i < j → j < n → matchesAtB cmds x y j = false) →
      hitSearch cmds x y n = (i : Int)) := by
  induction n with
  | zero =>
      refine ⟨fun _ => rfl, fun i hi _ _ => absurd hi (Nat.not_lt_zero i)⟩
  | succ n ih =>
      constructor
      · intro hnone
        rw [hitSearch_succ]
        rw [if_neg (by simp [hnone n (Nat.lt_succ_self n)])]
        exact ih.1 (fun i hi => hnone i (Nat.lt_succ_of_lt hi))
      · intro i hi hmatch hlater
        rw [hitSearch_succ]
        rcases Nat.lt_succ_iff_lt_or_eq.mp hi with hlt | heq
        · rw [if_neg (by simp [hlater n hlt (Nat.lt_succ_self n)])]
          exact ih.2 i hlt hmatch
            (fun j hij hjn => hlater j hij (Nat.lt_succ_of_lt hjn))
        · subst heq
          rw [if_pos hmatch]

/-- Claim C5: the hit-test scans the prefix `[0, uptoIndex)` in reverse
order and returns the index of the last-drawn (greatest-index) visible
command whose rendered geometry contains the point under the clip in
effect at that command; when no command in the prefix matches, it returns
the `-1` "not found" sentinel rather than an error. -/
theorem c5_getCommandAtPoint_spec (d : SkDebugger) (x y : Int) (index : Int) :
    ((∀ i, i < index.toNat → matchesAtB d.fDebugCanvas.commands x y i = false) →
      d.getCommandAtPoint x y index = -1) ∧
    (∀ i, i < index.toNat → matchesAtB d.fDebugCanvas.commands x y i = true →
      (∀ j, i < j → j < index.toNat → matchesAtB d.fDebugCanvas.commands x y j = false) →
      d.getCommandAtPoint x y index = (i : Int)) :=
  hitSearch_spec d.fDebugCanvas.commands x y index.toNat

/-- Concrete instantiation of C5, mirroring the spec's example: at a point
inside both `cmdA` and `cmdB` with `uptoIndex = 2`, the hit-test returns
index 1 (last-drawn wins), and at a point outside every command it
returns `-1`. -/
theorem c5_getCommandAtPoint_spec_witness :
    (1 : Nat) < (2 : Int).toNat ∧
    matchesAtB sampleDebugger.fDebugCanvas.commands 3 3 1 = true ∧
    sampleDebugger.getCommandAtPoint 3 3 2 = 1 ∧
    sampleDebugger.getCommandAtPoint 100 100 3 = -1 :=
  ⟨by decide, by decide,
   (c5_getCommandAtPoint_spec sampleDebugger 3 3 2).2 1 (by decide) (by decide)
     (fun j h1 h2 => absurd h1 (by omega)),
   (c5_getCommandAtPoint_spec sampleDebugger 100 100 3).1 (by decide)⟩

/-- Claim C6: loading a null picture, or a picture that cannot be
decomposed, fails with `InvalidPicture` and returns the prior debugger
state (command log and cursor) completely unchanged — no partial load. -/
theorem c6_load_invalid_unchanged (d : SkDebugger) (p : Option SkPicture)
    (h : p = Option.none ∨ ∃ pic, p = some pic ∧ pic.decomposed = Option.none) :
    d.loadPicture p = (d, some LoadError.invalidPicture) := by
  rcases h with h | ⟨pic, hp, hdec⟩
  · subst h
    rfl
  · subst hp
    simp [SkDebugger.loadPicture, hdec]

/-- Concrete instantiation of C6 at a null picture and at an
undecomposable picture. -/
theorem c6_load_invalid_unchanged_witness :
    sampleDebugger.loadPicture Option.none =
      (sampleDebugger, some LoadError.invalidPicture) ∧
    (badPicture.decomposed = Option.none) ∧
    sampleDebugger.loadPicture (some badPicture) =
      (sampleDebugger, some LoadError.invalidPicture) :=
  ⟨c6_load_invalid_unchanged sampleDebugger Option.none (Or.inl rfl),
   by decide,
   c6_load_invalid_unchanged sampleDebugger (some badPicture)
     (Or.inr ⟨badPicture, rfl, rfl⟩)⟩

/-- Claim C7: `getOverviewText` with a zero total time, or with empty
timing data, returns the defined "No data" text instead of dividing by
zero. -/
theorem c7_overview_no_data (typeTimes : List ℚ) (totTime : ℚ) (numRuns : Nat)
    (h : totTime = 0 ∨ typeTimes = []) :
    SkDebugger.getOverviewText typeTimes totTime numRuns = "No data" := by
  unfold SkDebugger.getOverviewText
  rw [if_pos h]

/-- Concrete instantiation of C7 with nonempty timing data but a zero
total time. -/
theorem c7_overview_no_data_witness :
    ((0 : ℚ) = 0 ∨ ([1, 2] : List ℚ) = []) ∧
    SkDebugger.getOverviewText [1, 2] 0 5 = "No data" :=
  ⟨Or.inl rfl, c7_overview_no_data [1, 2] 0 5 (Or.inl rfl)⟩

theorem renderRecord_congr (c1 c2 : SkDebugCanvas) (n j : Nat)
    (hc : c1.commands = c2.commands) (hf : c1.flags = c2.flags)
    (hfil : c1.filter = c2.filter) :
    renderRecord c1 n j = renderRecord c2 n j := by
  unfold renderRecord
  rw [hc, hf, hfil]

theorem drawTo_congr (c1 c2 : SkDebugCanvas) (surf : Surface) (upto : Int)
    (hc : c1.commands = c2.commands) (hf : c1.flags = c2.flags)
    (hfil : c1.filter = c2.filter) :
    c1.drawTo surf upto = c2.drawTo surf upto := by
  unfold SkDebugCanvas.drawTo
  congr 1
  exact List.filterMap_congr
    (fun j _ => renderRecord_congr c1 c2 upto.toNat j hc hf hfil)

/-- Claim C8, as stated, is false against the spec's own replay
description: replay also honors the highlight-filter toggle, which is not
part of the claim's tuple. Two logs that agree on the command sequence
(with its per-command visible flags) and on the render-mode flags, and
that are replayed with the same `uptoIndex` on the same surface, produce
different output when they differ in the highlight filter. -/
theorem c8_counterexample :
    logNoFilter.commands = logWithFilter.commands ∧
    logNoFilter.flags = logWithFilter.flags ∧
    logNoFilter.drawTo [] 1 ≠ logWithFilter.drawTo [] 1 := by
  decide

/-- Claim C8 (amended): replay output is a function of the tuple of
command sequence (with per-command visible flags), render-mode flags,
highlight-filter toggle and `uptoIndex`, together with the given surface;
and no hidden state carries over from one replay call to the next — a
replay call returns the canvas unchanged, and an immediately repeated
call on the returned canvas yields the identical output. -/
theorem c8_replay_deterministic (c1 c2 : SkDebugCanvas) (surf : Surface) (upto : Int)
    (hc : c1.commands = c2.commands) (hf : c1.flags = c2.flags)
    (hfil : c1.filter = c2.filter) :
    c1.drawTo surf upto = c2.drawTo surf upto ∧
    (c1.drawToCall surf upto).2 = c1 ∧
    ((c1.drawToCall surf upto).2.drawToCall surf upto).1 = (c1.drawToCall surf upto).1 :=
  ⟨drawTo_congr c1 c2 surf upto hc hf hfil, rfl, rfl⟩

/-- Concrete instantiation of the amended C8 theorem. -/
theorem c8_replay_deterministic_witness :
    logNoFilter.commands = logNoFilter.commands ∧
    logNoFilter.drawTo [] 1 = logNoFilter.drawTo [] 1 ∧
    (logNoFilter.drawToCall [] 1).2 = logNoFilter :=
  ⟨rfl, (c8_replay_deterministic logNoFilter logNoFilter [] 1 rfl rfl rfl).1,
   (c8_replay_deterministic logNoFilter logNoFilter [] 1 rfl rfl rfl).2.1⟩

theorem setVisibleAt_get_ne (cmds : List SkDrawCommand) (i j : Nat) (b : Bool)
    (h : j ≠ i) : (setVisibleAt cmds i b).get? j = cmds.get? j := by
  induction cmds generalizing i j with
  | nil => rfl
  | cons c cs ih =>
      cases i with
      | zero =>
          cases j with
          | zero => exact absurd rfl h
          | succ m => rfl
      | succ n =>
          cases j with
          | zero => rfl
          | succ m => exact ih n m (fun hm => h (congrArg Nat.succ hm))

theorem setVisibleAt_get_self (cmds : List SkDrawCommand) (i : Nat) (b : Bool) :
    (setVisibleAt cmds i b).get? i =
      (cmds.get? i).map (fun c => { c with visible := b }) := by
  induction cmds generalizing i with
  | nil => rfl
  | cons d ds ih =>
      cases i with
      | zero => rfl
      | succ n => exact ih n

theorem setVisibleAt_restore (cmds : List SkDrawCommand) (i : Nat)
    (c : SkDrawCommand) (h : cmds.get? i = some c) (hv : c.visible = true) :
    setVisibleAt (setVisibleAt cmds i false) i true = cmds := by
  induction cmds generalizing i with
  | nil => rfl
  | cons d ds ih =>
      cases i with
      | zero =>
          rw [List.get?_cons_zero] at h
          have hdc : d = c := by injection h
          subst hdc
          cases d with
          | mk op vis cov =>
              cases hv
              rfl
      | succ n =>
          rw [List.get?_cons_succ] at h
          show d :: setVisibleAt (setVisibleAt ds n false) n true = d :: ds
          rw [ih n h]

theorem renderRecord_hide (c : SkDebugCanvas) (i n j : Nat) :
    renderRecord { c with commands := setVisibleAt c.commands i false } n j =
      if j = i then none else renderRecord c n j := by
  by_cases hji : j = i
  · subst hji
    rw [if_pos rfl]
    simp only [renderRecord, setVisibleAt_get_self]
    cases h : c.commands.get? j with
    | none => rfl
    | some cmd => rfl
  · rw [if_neg hji]
    simp only [renderRecord, setVisibleAt_get_ne c.commands i j false hji]


/-- Claim C9: for an in-range index `i` whose command is visible, setting
its visibility to false leaves every other command's entry (and flag)
unchanged, turns exactly entry `i` invisible, and replay then excludes
exactly command `i`'s contribution (every other index contributes the
same record as before); setting the flag back to true restores replay
output identical to the pre-toggle replay. -/
theorem c9_visibility_toggle (c : SkDebugCanvas) (surf : Surface) (i : Nat)
    (upto : Int) (cmd : SkDrawCommand) (hget : c.commands.get? i = some cmd)
    (hvis : cmd.visible = true) :
    (∀ j, j ≠ i → (setVisibleAt c.commands i false).get? j = c.commands.get? j) ∧
    (setVisibleAt c.commands i false).get? i = some { cmd with visible := false } ∧
    SkDebugCanvas.drawTo { c with commands := setVisibleAt c.commands i false } surf upto =
      surf ++ (List.range upto.toNat).filterMap
        (fun j => if j = i then none else renderRecord c upto.toNat j) ∧
    SkDebugCanvas.drawTo { c with commands := setVisibleAt (setVisibleAt c.commands i false) i true } surf upto =
      c.drawTo surf upto := by
  refine ⟨fun j hj => setVisibleAt_get_ne c.commands i j false hj, ?_, ?_, ?_⟩
  · rw [setVisibleAt_get_self, hget]
    rfl
  · unfold SkDebugCanvas.drawTo
    congr 1
    exact List.filterMap_congr (fun j _ => renderRecord_hide c i upto.toNat j)
  · rw [setVisibleAt_restore c.commands i cmd hget hvis]

/-- Concrete instantiation of C9 on the three-command sample log, hiding
and restoring the middle command. -/
theorem c9_visibility_toggle_witness :
    sampleLog.commands.get? 1 = some cmdB ∧
    cmdB.visible = true ∧
    SkDebugCanvas.drawTo { sampleLog with commands := setVisibleAt sampleLog.commands 1 false } [] 3 =
      [] ++ (List.range (3 : Int).toNat).filterMap
        (fun j => if j = 1 then none else renderRecord sampleLog (3 : Int).toNat j) ∧
    SkDebugCanvas.drawTo { sampleLog with commands := setVisibleAt (setVisibleAt sampleLog.commands 1 false) 1 true } [] 3 =
      sampleLog.drawTo [] 3 :=
  ⟨by decide, by decide,
   (c9_visibility_toggle sampleLog [] 1 3 cmdB (by decide) (by decide)).2.2.1,
   (c9_visibility_toggle sampleLog [] 1 3 cmdB (by decide) (by decide)).2.2.2⟩

/-- Claim C10: when no picture is loaded (`fPicture` is null),
`pictureCull()` returns the empty rectangle rather than dereferencing the
null picture; when a picture is loaded it returns that picture's cull
rectangle. -/
theorem c10_pictureCull_total (d : SkDebugger) :
    (d.fPicture = Option.none → d.pictureCull = SkRect.makeEmpty) ∧
    (∀ pic, d.fPicture = some pic → d.pictureCull = pic.cullRect) := by
  constructor
  · intro h
    unfold SkDebugger.pictureCull
    rw [h]
  · intro pic h
    unfold SkDebugger.pictureCull
    rw [h]

/-- Concrete instantiation of C10 at the freshly constructed debugger (no
picture) and at a debugger holding the sample picture. -/
theorem c10_pictureCull_total_witness :
    SkDebugger.initial.fPicture = Option.none ∧
    SkDebugger.initial.pictureCull = SkRect.makeEmpty ∧
    sampleDebugger.fPicture = some samplePicture ∧
    sampleDebugger.pictureCull = samplePicture.cullRect :=
  ⟨rfl, (c10_pictureCull_total SkDebugger.initial).1 rfl, rfl,
   (c10_pictureCull_total sampleDebugger).2 samplePicture rfl⟩
